import Mathlib

/-!
Verification of the update-dispatch / input-handling core of a terminal
messenger client (`tg/controllers/__init__.py`).  The controller code is
embedded shallowly: each handler becomes a pure function from an explicit
`State` to a new `State` together with a trace of externally visible
effects (`Eff`): lock acquisition/release, draw calls on the three panes,
outbound backend calls, desktop notifications and log lines.

The `Model`, `View`, `MsgProxy` and `config` collaborators of the
controller are not part of the analysed source; where a claim depends on
them they are modelled from the spec (each such definition carries a
doc comment starting with `Modelled from the spec:`).
-/

namespace Tg

/-- Modelled from the spec: `notification_settings{mute_for: seconds-or-0}`
of a chat (the `Model` class is not in the analysed source). -/
structure NotificationSettings where
  mute_for : Int
deriving Repr, DecidableEq

/-- Modelled from the spec: a Chat record
`{id, title, order, is_pinned, is_marked_as_unread, unread_count,
last_read_inbox_message_id, last_message, notification_settings}`.
The `last_message` payload is abstracted to its id, since no analysed
code inspects it. -/
structure Chat where
  id : Int
  title : String
  order : Int
  is_pinned : Bool
  is_marked_as_unread : Bool
  unread_count : Int
  last_read_inbox_message_id : Int
  last_message : Int
  notification_settings : NotificationSettings
deriving Repr, DecidableEq

/-- Modelled from the spec: a Message identified by `(chat_id, id)`, with
sender id, content (text or typed media with a file reference) and the
local-availability state of any attached file.  The `MsgProxy` accessors
of the source (`file_id`, `size`, `is_text`, `text_content`,
`content_type`, `sender_id`, `is_downloaded`) are modelled as direct
field reads on this record. -/
structure Msg where
  id : Int
  chat_id : Int
  sender_user_id : Int
  is_text_content : Bool
  text : String
  content_type_label : String
  file_id : Option Int
  file_size : Int
  local_is_downloading_completed : Bool
deriving Repr, DecidableEq

/-- Externally visible effects of a controller operation, in order. -/
inductive Eff where
  | acquire
  | release
  | drawChats
  | drawMsgs
  | drawStatus (msg : Option String)
  | callDownloadFile (file_id : Int)
  | callEditMessage (text : String)
  | callSetNotificationSettings (chat_id : Int) (mute_for : Int)
  | callSendFile (path : String) (chat_id : Option Int)
  | notify (text : String) (title : String)
  | logWarning
deriving Repr, DecidableEq

/-- Modelled from the spec: the pending-download registry
`transfer id -> (chat_id, message_id)` (a Python dict in `Model`),
lookup on an association list. -/
def dLookup (k : Int) : List (Int × Int × Int) → Option (Int × Int)
  | [] => none
  | kv :: rest => if kv.1 = k then some kv.2 else dLookup k rest

/-- Modelled from the spec: dict key removal for the download registry. -/
def dErase (k : Int) : List (Int × Int × Int) → List (Int × Int × Int)
  | [] => []
  | kv :: rest => if kv.1 = k then dErase k rest else kv :: dErase k rest

/-- Modelled from the spec: dict key assignment for the download registry. -/
def dInsert (k : Int) (v : Int × Int) (l : List (Int × Int × Int)) :
    List (Int × Int × Int) :=
  (k, v) :: dErase k l

/-- Modelled from the spec: lookup of a user record (first and last name)
by user id in the user table of the store. -/
def uLookup (k : Int) : List (Int × String × String) → Option (String × String)
  | [] => none
  | kv :: rest => if kv.1 = k then some kv.2 else uLookup k rest

/-- Modelled from the spec: `users.get_user` of the store; absent users
yield empty names. -/
def getUser (users : List (Int × String × String)) (k : Int) : String × String :=
  (uLookup k users).getD ("", "")

/-- Modelled from the spec: lookup of a chat's ordered message list by
chat id (the `msgs` mapping of the store). -/
def mLookup (k : Int) : List (Int × List Msg) → Option (List Msg)
  | [] => none
  | kv :: rest => if kv.1 = k then some kv.2 else mLookup k rest

/-- Modelled from the spec: replace the message list stored for a chat. -/
def mSet (k : Int) (ms : List Msg) : List (Int × List Msg) → List (Int × List Msg)
  | [] => []
  | kv :: rest => if kv.1 = k then (kv.1, ms) :: rest else kv :: mSet k ms rest

/-- Modelled from the spec: `add_message` appends a message to the
per-chat ordered message list, creating the chat's list when absent. -/
def addMessage (cid : Int) (m : Msg) : List (Int × List Msg) → List (Int × List Msg)
  | [] => [(cid, [m])]
  | kv :: rest =>
    if kv.1 = cid then (kv.1, kv.2 ++ [m]) :: rest else kv :: addMessage cid m rest

/-- The full controller-visible state: the store (chats, messages,
download registry, users), the selection cursor, and configuration. -/
structure State where
  chats : List Chat
  current_chat : Nat
  msgs : List (Int × List Msg)
  current_msg_idx : Option Nat
  current_msg : Msg
  downloads : List (Int × Int × Int)
  users : List (Int × String × String)
  me : Int
  max_download_size : Int
deriving Repr, DecidableEq

/-- Modelled from the spec: `chats.id_by_index` of the store — the id of
the chat at a display index, `none` when the index is out of range. -/
def id_by_index (s : State) : Option Int :=
  (s.chats.get? s.current_chat).map Chat.id

/-- `Controller.update_status`: acquires the Render Gate and draws
`"{level}: {msg}"` on the status line. -/
def update_status (level msg : String) : List Eff :=
  [Eff.acquire, Eff.drawStatus (some (level ++ ": " ++ msg)), Eff.release]

/-- `Controller.present_error`. -/
def present_error (msg : String) : List Eff :=
  update_status "Error" msg

/-- `Controller.present_info`. -/
def present_info (msg : String) : List Eff :=
  update_status "Info" msg

/-- `Controller.refresh_msgs`: returns early when there is no current
message index, otherwise draws the message pane.  Acquires no lock. -/
def refreshMsgsEff (s : State) : List Eff :=
  match s.current_msg_idx with
  | none => []
  | some _ => [Eff.drawMsgs]

/-- `Controller.render`: under the Render Gate, draws the chat pane,
refreshes the message pane and redraws the status line. -/
def renderEff (s : State) : List Eff :=
  [Eff.acquire, Eff.drawChats] ++ refreshMsgsEff s ++ [Eff.drawStatus none, Eff.release]

/-- Modelled from the spec: partial field set merged into a chat record
by the store's single `update_chat` operation. -/
structure ChatPatch where
  order : Option Int
  title : Option String
  is_pinned : Option Bool
  is_marked_as_unread : Option Bool
  last_read_inbox_message_id : Option Int
  unread_count : Option Int
  last_message : Option Int
  notification_settings : Option NotificationSettings
deriving Repr, DecidableEq

/-- The empty partial field set. -/
def emptyPatch : ChatPatch :=
  ⟨none, none, none, none, none, none, none, none⟩

/-- Modelled from the spec: merge-mutation — replace only the named
fields of an existing chat record, preserving the others (notably the
id). -/
def applyPatch (c : Chat) (p : ChatPatch) : Chat :=
  { c with
    order := p.order.getD c.order
    title := p.title.getD c.title
    is_pinned := p.is_pinned.getD c.is_pinned
    is_marked_as_unread := p.is_marked_as_unread.getD c.is_marked_as_unread
    last_read_inbox_message_id :=
      p.last_read_inbox_message_id.getD c.last_read_inbox_message_id
    unread_count := p.unread_count.getD c.unread_count
    last_message := p.last_message.getD c.last_message
    notification_settings :=
      p.notification_settings.getD c.notification_settings }

/-- Modelled from the spec: display order of the chat list is a derived
sort over `(is_pinned desc, order desc)`. -/
def chatLE (a b : Chat) : Bool :=
  if a.is_pinned = b.is_pinned then decide (b.order ≤ a.order) else a.is_pinned

/-- Insert a chat into a display-sorted list. -/
def insertSorted (c : Chat) : List Chat → List Chat
  | [] => [c]
  | x :: xs => if chatLE c x then c :: x :: xs else x :: insertSorted c xs

/-- Sort the chat list into display order. -/
def sortChats : List Chat → List Chat
  | [] => []
  | c :: cs => insertSorted c (sortChats cs)

/-- Modelled from the spec: the store's `update_chat(id, partial fields)`
operation — merge the patch into the record with the given id and keep
the list in display order. -/
def update_chat (chats : List Chat) (cid : Int) (p : ChatPatch) : List Chat :=
  sortChats (chats.map fun c => if c.id = cid then applyPatch c p else c)

/-- Index of the first chat with the given id, as the linear scan of
`Controller._refresh_current_chat` computes it. -/
def findChatIdx (cid : Int) : List Chat → Option Nat
  | [] => none
  | c :: cs => if c.id = cid then some 0 else (findChatIdx cid cs).map (· + 1)

/-- `Controller._refresh_current_chat`: given the chat id captured before
the mutation, re-resolve the selection index to the first position of
that id (leaving it unchanged when the id is gone) and render. -/
def refresh_current_chat (s : State) (current_chat_id : Option Int) :
    State × List Eff :=
  match current_chat_id with
  | none => (s, [])
  | some cid =>
    let s2 :=
      match findChatIdx cid s.chats with
      | some i => { s with current_chat := i }
      | none => s
    (s2, renderEff s2)

/-- Common shape of the seven chat-mutating update handlers: capture the
current chat id by index, merge-mutate the store, re-resolve and render. -/
def chatMutHandler (s : State) (cid : Int) (p : ChatPatch) : State × List Eff :=
  let current_chat_id := id_by_index s
  let s2 := { s with chats := update_chat s.chats cid p }
  refresh_current_chat s2 current_chat_id

/-- `Controller.update_chat_order`. -/
def update_chat_order (s : State) (chat_id order : Int) : State × List Eff :=
  chatMutHandler s chat_id { emptyPatch with order := some order }

/-- `Controller.update_chat_title`. -/
def update_chat_title (s : State) (chat_id : Int) (title : String) :
    State × List Eff :=
  chatMutHandler s chat_id { emptyPatch with title := some title }

/-- `Controller.update_chat_marked_as_unread`. -/
def update_chat_marked_as_unread (s : State) (chat_id : Int) (u : Bool) :
    State × List Eff :=
  chatMutHandler s chat_id { emptyPatch with is_marked_as_unread := some u }

/-- `Controller.update_chat_is_pinned`. -/
def update_chat_is_pinned (s : State) (chat_id : Int) (pinned : Bool)
    (order : Int) : State × List Eff :=
  chatMutHandler s chat_id
    { emptyPatch with is_pinned := some pinned, order := some order }

/-- `Controller.update_chat_read_inbox`. -/
def update_chat_read_inbox (s : State) (chat_id lastRead unread : Int) :
    State × List Eff :=
  chatMutHandler s chat_id
    { emptyPatch with
      last_read_inbox_message_id := some lastRead, unread_count := some unread }

/-- `Controller.update_chat_draft_msg` (the draft payload itself is
ignored by the source; only the order is merged). -/
def update_chat_draft_msg (s : State) (chat_id order : Int) : State × List Eff :=
  chatMutHandler s chat_id { emptyPatch with order := some order }

/-- `Controller.update_chat_last_msg`. -/
def update_chat_last_msg (s : State) (chat_id message order : Int) :
    State × List Eff :=
  chatMutHandler s chat_id
    { emptyPatch with last_message := some message, order := some order }

/-- Number of draw effects performed while the lock depth is zero;
`d` is the current lock depth. -/
def unlockedDraws : Nat → List Eff → Nat
  | d, [] => 0 + 0 * d
  | d, Eff.acquire :: es => unlockedDraws (d + 1) es
  | d, Eff.release :: es => unlockedDraws (d - 1) es
  | d, Eff.drawChats :: es => (if d = 0 then 1 else 0) + unlockedDraws d es
  | d, Eff.drawMsgs :: es => (if d = 0 then 1 else 0) + unlockedDraws d es
  | d, Eff.drawStatus _ :: es => (if d = 0 then 1 else 0) + unlockedDraws d es
  | d, _ :: es => unlockedDraws d es

/-- `Controller.download`: record the pending download in the registry,
then issue the backend `download_file` call. -/
def download (s : State) (file_id chat_id msg_id : Int) : State × List Eff :=
  ({ s with downloads := dInsert file_id (chat_id, msg_id) s.downloads },
    [Eff.callDownloadFile file_id])

/-- `Controller.download_current_file`: download the current message's
attached file when it has one (a Python-falsy `file_id` — absent or 0 —
is skipped). -/
def download_current_file (s : State) : State × List Eff :=
  match s.current_msg.file_id with
  | none => (s, [])
  | some fid =>
    if fid ≠ 0 then download s fid s.current_msg.chat_id s.current_msg.id
    else (s, [])

/-- The `D` key branch of `Controller.handle_msgs`: download the current
file, then unconditionally report `File downloaded`. -/
def handle_msgs_D (s : State) : State × List Eff :=
  let r := download_current_file s
  (r.1, r.2 ++ present_info "File downloaded")

/-- `Controller.edit_msg`; `editorText` is the stripped text read back
from the temporary file after the external editor ran. -/
def edit_msg (s : State) (editorText : String) : State × List Eff :=
  if s.current_msg.sender_user_id ≠ s.me then
    (s, present_error "You can edit only your messages!")
  else if s.current_msg.is_text_content = false then
    (s, present_error "You can edit text messages only!")
  else if editorText ≠ "" then
    (s, Eff.callEditMessage editorText :: present_info "Message edited")
  else (s, [])

/-- `Controller.send_file`; `existingFiles` models the set of paths for
which `os.path.isfile` holds and `input` the prompted path (empty when
the prompt returned nothing). -/
def send_file (s : State) (existingFiles : List String) (input : String) :
    State × List Eff :=
  if input ≠ "" ∧ input ∈ existingFiles then
    (s, Eff.callSendFile input (id_by_index s) :: present_info "File sent")
  else (s, [])

/-- The `m` key branch of `Controller.handle_chats`: flip `mute_for`
between 0 and the forever sentinel on the chat record, then send the
mutated settings to the backend. -/
def toggleMute (chat : Chat) : Chat × List Eff :=
  let ns := chat.notification_settings
  let newMute : Int := if ns.mute_for ≠ 0 then 0 else 2147483647
  ({ chat with notification_settings := { ns with mute_for := newMute } },
    [Eff.callSetNotificationSettings chat.id newMute])

/-- The `m` key action on the full state: toggle the currently selected
chat's mute setting in place. -/
def handle_chats_m (s : State) : State × List Eff :=
  match s.chats.get? s.current_chat with
  | none => (s, [])
  | some chat =>
    let r := toggleMute chat
    ({ s with chats := s.chats.set s.current_chat r.1 }, r.2)

/-- The chat-lookup loop of `Controller._notify_for_message`, with
Python `for`-variable semantics: the loop variable keeps the first
matching chat, or the last visited chat when nothing matched, and stays
`None` only on an empty list. -/
def findChatPy (cid : Int) : List Chat → Option Chat
  | [] => none
  | [c] => some c
  | c :: c2 :: rest =>
    if c.id = cid then some c else findChatPy cid (c2 :: rest)

/-- First chat with the given id, used to state when the lookup in
`_notify_for_message` genuinely finds the message's chat. -/
def firstChatWithId (cid : Int) : List Chat → Option Chat
  | [] => none
  | c :: cs => if c.id = cid then some c else firstChatWithId cid cs

/-- The mute test of `Controller._notify_for_message`: Python-truthiness
of `chat and chat["notification_settings"]["mute_for"]` on the loop
result. -/
def muteSuppressed (chats : List Chat) (chat_id : Int) : Bool :=
  match findChatPy chat_id chats with
  | some chat => chat.notification_settings.mute_for != 0
  | none => false

/-- `Controller._notify_for_message`: suppress when the looked-up chat
is muted or the sender is the local user, otherwise raise a desktop
notification titled with the sender's first and last name whose body is
the text for text messages and the content-type label otherwise. -/
def notifyForMessage (chats : List Chat) (users : List (Int × String × String))
    (me : Int) (chat_id : Int) (msg : Msg) : List Eff :=
  if muteSuppressed chats chat_id then []
  else if msg.sender_user_id = me then []
  else
    [Eff.notify (if msg.is_text_content then msg.text else msg.content_type_label)
      ((getUser users msg.sender_user_id).1 ++ " " ++
        (getUser users msg.sender_user_id).2)]

/-- The state reached after `update_new_msg` stores the new message. -/
def newMsgState (s : State) (msg : Msg) : State :=
  { s with msgs := addMessage msg.chat_id msg s.msgs }

/-- The auto-download step of `Controller.update_new_msg`: download when
the message carries a Python-truthy file id and its size is at most the
configured ceiling. -/
def downloadStep (s1 : State) (msg : Msg) : State × List Eff :=
  match msg.file_id with
  | some fid =>
    if fid ≠ 0 ∧ msg.file_size ≤ s1.max_download_size then
      download s1 fid msg.chat_id msg.id
    else (s1, [])
  | none => (s1, [])

/-- `Controller.update_new_msg`: add the message to the store, refresh
the message pane when the open chat received it, auto-download an
attached file at or below the configured ceiling, then run the desktop
notification policy. -/
def update_new_msg (s : State) (msg : Msg) : State × List Eff :=
  ((downloadStep (newMsgState s msg) msg).1,
    (if id_by_index (newMsgState s msg) = some msg.chat_id then
      refreshMsgsEff (newMsgState s msg)
    else []) ++
    ((downloadStep (newMsgState s msg) msg).2 ++
      notifyForMessage (downloadStep (newMsgState s msg) msg).1.chats
        (downloadStep (newMsgState s msg) msg).1.users
        (downloadStep (newMsgState s msg) msg).1.me msg.chat_id msg))

/-- In-place content edit of the first message with the given id, as the
store's `update_msg_content` applies it. -/
def setContentFirst (mid : Int) (isText : Bool) (txt : String) :
    List Msg → List Msg
  | [] => []
  | m :: rest =>
    if m.id = mid then { m with is_text_content := isText, text := txt } :: rest
    else m :: setContentFirst mid isText txt rest

/-- The state reached after `update_msg_content` mutates the stored
message content in place. -/
def msgContentState (s : State) (chat_id message_id : Int) (isText : Bool)
    (txt : String) : State :=
  { s with
    msgs :=
      match mLookup chat_id s.msgs with
      | some ms => mSet chat_id (setContentFirst message_id isText txt ms) s.msgs
      | none => s.msgs }

/-- `Controller.update_msg_content`: mutate the stored message content,
then refresh the message pane — without the Render Gate — when the
mutated chat is the open one. -/
def update_msg_content (s : State) (chat_id message_id : Int) (isText : Bool)
    (txt : String) : State × List Eff :=
  if id_by_index (msgContentState s chat_id message_id isText txt) =
      some chat_id then
    (msgContentState s chat_id message_id isText txt,
      refreshMsgsEff (msgContentState s chat_id message_id isText txt))
  else (msgContentState s chat_id message_id isText txt, [])

/-- Set the local-availability state of the first message with the given
id, also reporting whether a message was found (the loop body of
`Controller.update_file` runs only when one is). -/
def setLocalFirst (mid : Int) (completed : Bool) :
    List Msg → List Msg × Bool
  | [] => ([], false)
  | m :: rest =>
    if m.id = mid then
      ({ m with local_is_downloading_completed := completed } :: rest, true)
    else
      let r := setLocalFirst mid completed rest
      (m :: r.1, r.2)

/-- `Controller.update_file`: an untracked transfer id is logged and
ignored; a tracked one updates the referenced message's local state,
refreshes the message pane, and drops the registry entry once the file
is fully local. -/
def update_file (s : State) (file_id : Int) (completed : Bool) :
    State × List Eff :=
  match dLookup file_id s.downloads with
  | none => (s, [Eff.logWarning])
  | some cm =>
    match mLookup cm.1 s.msgs with
    | none => (s, [])
    | some ms =>
      let r := setLocalFirst cm.2 completed ms
      let s2 := { s with msgs := mSet cm.1 r.1 s.msgs }
      if r.2 then
        if completed then
          ({ s2 with downloads := dErase file_id s2.downloads },
            refreshMsgsEff s2)
        else (s2, refreshMsgsEff s2)
      else (s2, [])

/-- Number of backend `download_file` calls for a given file id in an
effect trace. -/
def countDL (fid : Int) : List Eff → Nat
  | [] => 0
  | Eff.callDownloadFile f :: es => (if f = fid then 1 else 0) + countDL fid es
  | _ :: es => countDL fid es

/-- Whether an effect trace raises a desktop notification. -/
def notifies : List Eff → Bool
  | [] => false
  | Eff.notify _ _ :: _ => true
  | _ :: es => notifies es

/-- A plain unmuted, unpinned chat used in concrete test states. -/
def baseChat : Chat :=
  { id := 1, title := "one", order := 5, is_pinned := false,
    is_marked_as_unread := false, unread_count := 0,
    last_read_inbox_message_id := 0, last_message := 0,
    notification_settings := { mute_for := 0 } }

/-- A plain text message from user 2 used in concrete test states. -/
def baseMsg : Msg :=
  { id := 10, chat_id := 1, sender_user_id := 2, is_text_content := true,
    text := "hello", content_type_label := "photo", file_id := none,
    file_size := 0, local_is_downloading_completed := false }

/-- A two-chat state with chat 1 selected, one message in chat 1, and
user 2 known; the local user is 1. -/
def baseState : State :=
  { chats := [baseChat, { baseChat with id := 2, order := 10, title := "two" }],
    current_chat := 0, msgs := [(1, [baseMsg])], current_msg_idx := some 0,
    current_msg := baseMsg, downloads := [], users := [(2, "Ann", "Lee")],
    me := 1, max_download_size := 100 }

/-- A non-text message sent by the local user. -/
def ownNonTextMsg : Msg :=
  { baseMsg with sender_user_id := 1, is_text_content := false }

/-- The base state with a non-text own message selected. -/
def ownNonTextState : State :=
  { baseState with current_msg := ownNonTextMsg }

/-- The base chat muted for 300 seconds. -/
def mutedChat : Chat :=
  { baseChat with notification_settings := { mute_for := 300 } }

/-- The base state with the selected chat muted. -/
def mutedState : State :=
  { baseState with
    chats := [mutedChat, { baseChat with id := 2, order := 10 }] }

/-- The base state with file 7 registered as a pending download for
message 10 of chat 1. -/
def dlState : State :=
  { baseState with downloads := [(7, 1, 10)] }

theorem mem_of_getq {α : Type} : ∀ (l : List α) (n : Nat) (a : α),
    l.get? n = some a → a ∈ l
  | [], n, a, h => by simp [List.get?] at h
  | x :: xs, 0, a, h => by
    simp [List.get?] at h
    simp [h]
  | x :: xs, n + 1, a, h => by
    simp only [List.get?] at h
    exact List.mem_cons_of_mem x (mem_of_getq xs n a h)

theorem getq_set_self {α : Type} : ∀ (l : List α) (n : Nat) (x c : α),
    l.get? n = some x → (l.set n c).get? n = some c
  | [], n, x, c, h => by simp [List.get?] at h
  | a :: as, 0, x, c, h => rfl
  | a :: as, n + 1, x, c, h => by
    simpa [List.set, List.get?] using getq_set_self as n x c h

theorem dLookup_dInsert_self (k : Int) (v : Int × Int)
    (l : List (Int × Int × Int)) : dLookup k (dInsert k v l) = some v := by
  simp [dInsert, dLookup]

theorem dLookup_dErase_ne (f k : Int) (l : List (Int × Int × Int))
    (h : f ≠ k) : dLookup f (dErase k l) = dLookup f l := by
  induction l with
  | nil => rfl
  | cons kv rest ih =>
    have hkf : ¬(k = f) := fun he => h he.symm
    by_cases hk : kv.1 = k
    · simp [dErase, dLookup, hk, ih, hkf]
    · simp [dErase, dLookup, hk, ih]

theorem dLookup_dErase_self (k : Int) (l : List (Int × Int × Int)) :
    dLookup k (dErase k l) = none := by
  induction l with
  | nil => rfl
  | cons kv rest ih =>
    by_cases hk : kv.1 = k
    · simp [dErase, hk, ih]
    · simp [dErase, dLookup, hk, ih]

theorem dLookup_dInsert_ne (f k : Int) (v : Int × Int)
    (l : List (Int × Int × Int)) (h : f ≠ k) :
    dLookup f (dInsert k v l) = dLookup f l := by
  have hkf : ¬(k = f) := fun he => h he.symm
  simp [dInsert, dLookup, hkf, dLookup_dErase_ne f k l h]

theorem insertSorted_perm (c : Chat) (l : List Chat) :
    (insertSorted c l).Perm (c :: l) := by
  induction l with
  | nil => simp [insertSorted]
  | cons x xs ih =>
    unfold insertSorted
    by_cases hb : chatLE c x = true
    · simp [hb]
    · simp only [hb, if_false]
      exact (ih.cons x).trans (List.Perm.swap c x xs)

theorem sortChats_perm : ∀ l : List Chat, (sortChats l).Perm l
  | [] => by simp [sortChats]
  | c :: cs => by
    unfold sortChats
    exact (insertSorted_perm c (sortChats cs)).trans ((sortChats_perm cs).cons c)

theorem map_id_patch (l : List Chat) (k : Int) (p : ChatPatch) :
    (l.map fun c => if c.id = k then applyPatch c p else c).map Chat.id =
      l.map Chat.id := by
  induction l with
  | nil => rfl
  | cons c cs ih =>
    simp only [List.map_cons, ih]
    congr 1
    by_cases h : c.id = k <;> simp [h, applyPatch]

theorem mem_map_id_update_chat (l : List Chat) (k a : Int) (p : ChatPatch) :
    a ∈ (update_chat l k p).map Chat.id ↔ a ∈ l.map Chat.id := by
  unfold update_chat
  rw [((sortChats_perm _).map Chat.id).mem_iff, map_id_patch]

theorem findChatIdx_spec : ∀ (l : List Chat) (a : Int), a ∈ l.map Chat.id →
    ∃ i c, findChatIdx a l = some i ∧ l.get? i = some c ∧ c.id = a := by
  intro l a
  induction l with
  | nil => simp
  | cons c cs ih =>
    intro h
    by_cases hc : c.id = a
    · exact ⟨0, c, by simp [findChatIdx, hc], rfl, hc⟩
    · have hmem : a ∈ cs.map Chat.id := by
        have h2 := h
        simp only [List.map_cons, List.mem_cons] at h2
        rcases h2 with he | hm
        · exact absurd he.symm hc
        · exact hm
      rcases ih hmem with ⟨i, c2, h1, h2, h3⟩
      exact ⟨i + 1, c2, by simp [findChatIdx, hc, h1], by simpa using h2, h3⟩

theorem setLocalFirst_found (mid : Int) (b : Bool) :
    ∀ ms : List Msg, (∃ m ∈ ms, m.id = mid) →
      (setLocalFirst mid b ms).2 = true := by
  intro ms
  induction ms with
  | nil => simp
  | cons m rest ih =>
    intro h
    by_cases hm : m.id = mid
    · simp [setLocalFirst, hm]
    · have : ∃ x ∈ rest, x.id = mid := by
        rcases h with ⟨x, hx, hid⟩
        rcases List.mem_cons.mp hx with he | hmem
        · exact absurd (he ▸ hid) hm
        · exact ⟨x, hmem, hid⟩
      simp [setLocalFirst, hm, ih this]

theorem firstChat_findChatPy (cid : Int) (c : Chat) :
    ∀ l : List Chat, firstChatWithId cid l = some c →
      findChatPy cid l = some c := by
  intro l
  induction l with
  | nil => simp [firstChatWithId]
  | cons a as ih =>
    cases as with
    | nil =>
      intro h
      by_cases ha : a.id = cid
      · simpa [firstChatWithId, ha, findChatPy] using h
      · simp [firstChatWithId, ha] at h
    | cons b bs =>
      intro h
      by_cases ha : a.id = cid
      · have h2 : a = c := by simpa [firstChatWithId, ha] using h
        subst h2
        simp [findChatPy, ha]
      · simp only [firstChatWithId, ha, if_false] at h
        simpa [findChatPy, ha] using ih h

theorem countDL_append (f : Int) (a b : List Eff) :
    countDL f (a ++ b) = countDL f a + countDL f b := by
  induction a with
  | nil => simp [countDL]
  | cons e es ih => cases e <;> simp [countDL, ih, Nat.add_assoc]

theorem countDL_refresh (f : Int) (s : State) :
    countDL f (refreshMsgsEff s) = 0 := by
  unfold refreshMsgsEff
  cases s.current_msg_idx <;> rfl

theorem notifyForMessage_cases (chats : List Chat)
    (users : List (Int × String × String)) (me chat_id : Int) (msg : Msg) :
    notifyForMessage chats users me chat_id msg = [] ∨
      ∃ t n, notifyForMessage chats users me chat_id msg = [Eff.notify t n] := by
  unfold notifyForMessage
  split_ifs <;> first
    | exact Or.inl rfl
    | exact Or.inr ⟨_, _, rfl⟩

theorem downloadStep_chats (s1 : State) (msg : Msg) :
    (downloadStep s1 msg).1.chats = s1.chats := by
  unfold downloadStep
  split
  · split <;> rfl
  · rfl

theorem downloadStep_users (s1 : State) (msg : Msg) :
    (downloadStep s1 msg).1.users = s1.users := by
  unfold downloadStep
  split
  · split <;> rfl
  · rfl

theorem downloadStep_me (s1 : State) (msg : Msg) :
    (downloadStep s1 msg).1.me = s1.me := by
  unfold downloadStep
  split
  · split <;> rfl
  · rfl

theorem notifies_downloadStep (s1 : State) (msg : Msg) :
    notifies (downloadStep s1 msg).2 = false := by
  unfold downloadStep
  split
  · split <;> rfl
  · rfl

theorem countDL_notifyForMessage (f : Int) (chats : List Chat)
    (users : List (Int × String × String)) (me chat_id : Int) (msg : Msg) :
    countDL f (notifyForMessage chats users me chat_id msg) = 0 := by
  rcases notifyForMessage_cases chats users me chat_id msg with h | ⟨t, n, h⟩
  · rw [h]
    rfl
  · rw [h]
    rfl

theorem notifies_append (a b : List Eff) :
    notifies (a ++ b) = (notifies a || notifies b) := by
  induction a with
  | nil => simp [notifies]
  | cons e es ih => cases e <;> simp [notifies, ih]

theorem notifies_refresh (s : State) : notifies (refreshMsgsEff s) = false := by
  unfold refreshMsgsEff
  cases s.current_msg_idx <;> rfl

theorem notifies_update_new_msg (s : State) (msg : Msg) :
    notifies (update_new_msg s msg).2 =
      notifies (notifyForMessage s.chats s.users s.me msg.chat_id msg) := by
  unfold update_new_msg
  rw [notifies_append, notifies_append, notifies_downloadStep,
    downloadStep_chats, downloadStep_users, downloadStep_me]
  have h1 : notifies
      (if id_by_index (newMsgState s msg) = some msg.chat_id then
        refreshMsgsEff (newMsgState s msg)
      else []) = false := by
    split
    · exact notifies_refresh _
    · rfl
  rw [h1]
  rfl

theorem mem_update_new_msg_of_mem_notify (s : State) (msg : Msg) (e : Eff)
    (he : e ∈ notifyForMessage s.chats s.users s.me msg.chat_id msg) :
    e ∈ (update_new_msg s msg).2 := by
  unfold update_new_msg
  simp only [List.mem_append]
  refine Or.inr (Or.inr ?_)
  rw [downloadStep_chats, downloadStep_users, downloadStep_me]
  exact he

theorem drawChats_chatMutHandler (s : State) (cid : Int) (p : ChatPatch) :
    Eff.drawChats ∈ (chatMutHandler s cid p).2 ↔ id_by_index s ≠ none := by
  unfold chatMutHandler refresh_current_chat
  cases h : id_by_index s with
  | none => simp
  | some cid2 => simp [renderEff]

/-- C1 (counterexample): the claim that every screen-drawing path —
including the message-pane refresh invoked by update handlers — holds the
Render Gate lock for its full duration is false at a concrete input: on a
state whose open chat is the mutated one, `update_msg_content` performs a
message-pane draw at lock depth zero. -/
theorem c1_unlocked_draw_counterexample :
    unlockedDraws 0 (update_msg_content baseState 1 10 true "x").2 = 1 ∧
      Eff.drawMsgs ∈ (update_msg_content baseState 1 10 true "x").2 := by
  constructor <;> decide

/-- C1 (amended): `render` and `update_status` perform all their draws
while holding the Render Gate, but the message-pane refresh that
`update_msg_content` invokes directly runs without the lock: it performs
exactly one unlocked draw whenever the mutated chat is the open one and
a current message index exists. -/
theorem c1_render_gate_amended (s : State) (level msg : String)
    (cid mid : Int) (b : Bool) (t : String) :
    unlockedDraws 0 (renderEff s) = 0 ∧
    unlockedDraws 0 (update_status level msg) = 0 ∧
    unlockedDraws 0 (update_msg_content s cid mid b t).2 =
      (if id_by_index s = some cid ∧ s.current_msg_idx ≠ none then 1 else 0) := by
  have hii : id_by_index (msgContentState s cid mid b t) = id_by_index s := rfl
  have hri : refreshMsgsEff (msgContentState s cid mid b t) = refreshMsgsEff s :=
    rfl
  refine ⟨?_, rfl, ?_⟩
  · unfold renderEff refreshMsgsEff
    cases s.current_msg_idx <;> rfl
  · unfold update_msg_content
    rw [hii]
    by_cases hc : id_by_index s = some cid
    · rw [if_pos hc]
      cases hi : s.current_msg_idx with
      | none =>
        rw [if_neg (by simp [hi]), hri]
        unfold refreshMsgsEff
        rw [hi]
        rfl
      | some i =>
        rw [if_pos ⟨hc, by simp [hi]⟩, hri]
        unfold refreshMsgsEff
        rw [hi]
        rfl
    · rw [if_neg hc, if_neg (by intro hand; exact hc hand.1)]
      rfl

/-- C8 (counterexample): the claim that a chat-mutating update event for
a chat other than the currently displayed one triggers no redraw is
false at a concrete input: with chat 1 selected, a title update for chat
2 still performs a full render. -/
theorem c8_background_redraw_counterexample :
    id_by_index baseState = some 1 ∧
      Eff.drawChats ∈ (update_chat_title baseState 2 "zz").2 := by
  constructor <;> decide

/-- C8 (amended): every one of the seven chat-mutating update handlers
(order, title, marked-unread, pinned, read-inbox, draft, last-message)
triggers a full re-render exactly when a current chat id resolves,
regardless of whether the mutated chat is the displayed one; the
mutation is silent only when the selection index resolves to no chat. -/
theorem c8_redraw_policy_amended (s : State) (cid o lastRead unread lastMsg : Int)
    (title : String) (u pinned : Bool) :
    (Eff.drawChats ∈ (update_chat_order s cid o).2 ↔ id_by_index s ≠ none) ∧
    (Eff.drawChats ∈ (update_chat_title s cid title).2 ↔ id_by_index s ≠ none) ∧
    (Eff.drawChats ∈ (update_chat_marked_as_unread s cid u).2 ↔
      id_by_index s ≠ none) ∧
    (Eff.drawChats ∈ (update_chat_is_pinned s cid pinned o).2 ↔
      id_by_index s ≠ none) ∧
    (Eff.drawChats ∈ (update_chat_read_inbox s cid lastRead unread).2 ↔
      id_by_index s ≠ none) ∧
    (Eff.drawChats ∈ (update_chat_draft_msg s cid o).2 ↔ id_by_index s ≠ none) ∧
    (Eff.drawChats ∈ (update_chat_last_msg s cid lastMsg o).2 ↔
      id_by_index s ≠ none) :=
  ⟨drawChats_chatMutHandler s cid _, drawChats_chatMutHandler s cid _,
    drawChats_chatMutHandler s cid _, drawChats_chatMutHandler s cid _,
    drawChats_chatMutHandler s cid _, drawChats_chatMutHandler s cid _,
    drawChats_chatMutHandler s cid _⟩

/-- C5 (counterexample): the claim that rejecting an edit of another
user's message shows exactly `You can edit only your messages!` on the
status line is false at a concrete input: the drawn status string is
`Error: You can edit only your messages!`. -/
theorem c5_edit_status_counterexample :
    Eff.drawStatus (some "You can edit only your messages!") ∉
        (edit_msg baseState "new text").2 ∧
      Eff.drawStatus (some "Error: You can edit only your messages!") ∈
        (edit_msg baseState "new text").2 := by
  constructor <;> decide

/-- C5 (amended): when the current message's sender is not the local
user, `edit_msg` makes no backend or store edit call, leaves the state
unchanged, and its only effects are the status-line draw of
`Error: You can edit only your messages!`; likewise a non-text own
message is rejected with `Error: You can edit text messages only!`. -/
theorem c5_edit_rejection_amended (s : State) (editorText : String) :
    (s.current_msg.sender_user_id ≠ s.me →
      edit_msg s editorText =
        (s, present_error "You can edit only your messages!")) ∧
    (s.current_msg.sender_user_id = s.me →
      s.current_msg.is_text_content = false →
      edit_msg s editorText =
        (s, present_error "You can edit text messages only!")) := by
  constructor
  · intro h
    unfold edit_msg
    rw [if_pos h]
  · intro h1 h2
    unfold edit_msg
    rw [if_neg (by simp [h1]), if_pos h2]

/-- C9 (counterexample): the claim that a send-media action with an
empty or non-existing path surfaces the rejection on the status line is
false at a concrete input: both rejections produce no effect at all. -/
theorem c9_silent_rejection_counterexample :
    send_file baseState ["a.txt"] "" = (baseState, []) ∧
      send_file baseState ["a.txt"] "missing.txt" = (baseState, []) := by
  constructor <;> decide

/-- C9 (amended): when the prompted path is empty or does not name an
existing file, `send_file` makes no backend send call and changes no
state, but the rejection is silent — no status-line message is drawn. -/
theorem c9_send_file_rejected_amended (s : State) (files : List String)
    (input : String) (h : input = "" ∨ input ∉ files) :
    send_file s files input = (s, []) := by
  unfold send_file
  rcases h with h | h
  · rw [if_neg (by simp [h])]
  · rw [if_neg (by intro hand; exact h hand.2)]

/-- C9 (witness): the amended theorem applied to the empty prompted
path. -/
theorem c9_send_file_rejected_witness :
    send_file baseState ["a.txt"] "" = (baseState, []) ∧
      send_file baseState ["b.txt"] "a.txt" = (baseState, []) :=
  ⟨c9_send_file_rejected_amended baseState ["a.txt"] "" (Or.inl rfl),
    c9_send_file_rejected_amended baseState ["b.txt"] "a.txt"
      (Or.inr (by decide))⟩

/-- C5 (witness): the amended theorem applied to a message from user 2
while the local user is 1 (first branch) and to a non-text own message
(second branch). -/
theorem c5_edit_rejection_witness :
    edit_msg baseState "new text" =
        (baseState, present_error "You can edit only your messages!") ∧
      edit_msg ownNonTextState "new text" =
        (ownNonTextState, present_error "You can edit text messages only!") :=
  ⟨(c5_edit_rejection_amended baseState "new text").1 (by decide),
    (c5_edit_rejection_amended ownNonTextState "new text").2 rfl rfl⟩

/-- C10: pressing `D` in message-list mode always draws the info status
`Info: File downloaded`, even when the current message has no attached
file — in which case no download call is made and no registry entry is
created (the state is unchanged and the only effects are the status
draw). -/
theorem c10_download_status_always (s : State) :
    Eff.drawStatus (some "Info: File downloaded") ∈ (handle_msgs_D s).2 ∧
      (s.current_msg.file_id = none →
        handle_msgs_D s = (s, present_info "File downloaded")) := by
  constructor
  · cases hf : s.current_msg.file_id with
    | none =>
      simp [handle_msgs_D, download_current_file, hf, present_info,
        update_status]
    | some fid =>
      by_cases h0 : fid ≠ 0 <;>
        simp [handle_msgs_D, download_current_file, hf, h0, present_info,
          update_status, download]
  · intro h
    simp [handle_msgs_D, download_current_file, h]

/-- C10 (witness): applied to the base state, whose current message has
no attached file. -/
theorem c10_download_status_always_witness :
    Eff.drawStatus (some "Info: File downloaded") ∈ (handle_msgs_D baseState).2 ∧
      handle_msgs_D baseState = (baseState, present_info "File downloaded") :=
  ⟨(c10_download_status_always baseState).1,
    (c10_download_status_always baseState).2 rfl⟩

/-- C2: when a chat is currently selected, handling `updateChatOrder`
captures the selected chat's id before the merge-mutation and afterwards
re-resolves the selection index to the position of that same id, so the
cursor follows the chat across reordering. -/
theorem c2_cursor_follows_chat_id (s : State) (cid chat_id o : Int)
    (h : id_by_index s = some cid) :
    id_by_index (update_chat_order s chat_id o).1 = some cid := by
  cases hg : s.chats.get? s.current_chat with
  | none =>
    rw [id_by_index, hg] at h
    simp at h
  | some c =>
    have hcid : c.id = cid := by
      rw [id_by_index, hg] at h
      simpa using h
    have hmem : cid ∈ s.chats.map Chat.id :=
      hcid ▸ List.mem_map_of_mem Chat.id (mem_of_getq _ _ _ hg)
    have hmem2 : cid ∈
        (update_chat s.chats chat_id
          { emptyPatch with order := some o }).map Chat.id :=
      (mem_map_id_update_chat _ _ _ _).mpr hmem
    rcases findChatIdx_spec _ _ hmem2 with ⟨i, c2, h1, h2, h3⟩
    unfold update_chat_order chatMutHandler refresh_current_chat
    rw [h]
    simp only [h1]
    show ((update_chat s.chats chat_id
        { emptyPatch with order := some o }).get? i).map Chat.id = some cid
    rw [h2]
    simp [h3]

/-- C2 (witness): the cursor follows chat 1 from display index 0 to
display index 1 when its order drops below chat 2's. -/
theorem c2_cursor_follows_chat_id_witness :
    id_by_index baseState = some 1 ∧
      id_by_index (update_chat_order baseState 1 1).1 = some 1 ∧
      (update_chat_order baseState 1 1).1.current_chat = 1 :=
  ⟨by decide, c2_cursor_follows_chat_id baseState 1 1 1 (by decide), by decide⟩

theorem downloadStep_eq (s1 : State) (msg : Msg) (fid : Int)
    (h1 : msg.file_id = some fid) (h2 : fid ≠ 0)
    (h3 : msg.file_size ≤ s1.max_download_size) :
    downloadStep s1 msg =
      ({ s1 with downloads := dInsert fid (msg.chat_id, msg.id) s1.downloads },
        [Eff.callDownloadFile fid]) := by
  unfold downloadStep
  simp only [h1]
  rw [if_pos ⟨h2, h3⟩]
  rfl

/-- C3: a new-message event carrying a file whose size is below the
configured ceiling triggers exactly one backend `download_file` call for
that file id and creates exactly one registry entry mapping the file id
to the message's (chat id, message id), leaving every other registry key
unchanged. -/
theorem c3_autodownload_once (s : State) (msg : Msg) (fid : Int)
    (h1 : msg.file_id = some fid) (h2 : fid ≠ 0)
    (h3 : msg.file_size < s.max_download_size) :
    countDL fid (update_new_msg s msg).2 = 1 ∧
      dLookup fid (update_new_msg s msg).1.downloads =
        some (msg.chat_id, msg.id) ∧
      ∀ f, f ≠ fid →
        dLookup f (update_new_msg s msg).1.downloads =
          dLookup f s.downloads := by
  have hds := downloadStep_eq (newMsgState s msg) msg fid h1 h2 (le_of_lt h3)
  refine ⟨?_, ?_, ?_⟩
  · unfold update_new_msg
    rw [hds, countDL_append, countDL_append, countDL_notifyForMessage]
    have he1 : countDL fid
        (if id_by_index (newMsgState s msg) = some msg.chat_id then
          refreshMsgsEff (newMsgState s msg)
        else []) = 0 := by
      split
      · exact countDL_refresh _ _
      · rfl
    rw [he1]
    simp [countDL]
  · unfold update_new_msg
    rw [hds]
    exact dLookup_dInsert_self fid _ _
  · intro f hf
    unfold update_new_msg
    rw [hds]
    exact dLookup_dInsert_ne f fid _ _ hf

/-- C3 (witness): a 50-byte file with id 7 on a new message in chat 1 is
downloaded exactly once and registered under (1, 10). -/
theorem c3_autodownload_once_witness :
    countDL 7 (update_new_msg baseState
        { baseMsg with file_id := some 7, file_size := 50 }).2 = 1 ∧
      dLookup 7 (update_new_msg baseState
          { baseMsg with file_id := some 7, file_size := 50 }).1.downloads =
        some (1, 10) ∧
      dLookup 9 (update_new_msg baseState
          { baseMsg with file_id := some 7, file_size := 50 }).1.downloads =
        none :=
  have hth := c3_autodownload_once baseState
    { baseMsg with file_id := some 7, file_size := 50 } 7 rfl (by decide)
    (by decide)
  ⟨hth.1, hth.2.1, by rw [hth.2.2 9 (by decide)]; rfl⟩

/-- C4: a file-status event whose transfer id is untracked is logged and
ignored with all state unchanged; a tracked transfer id whose referenced
message exists and whose file has become fully local has its registry
entry removed. -/
theorem c4_update_file_registry (s : State) (fid : Int) (completed : Bool)
    (cm : Int × Int) (ms : List Msg) :
    (dLookup fid s.downloads = none →
      update_file s fid completed = (s, [Eff.logWarning])) ∧
    (dLookup fid s.downloads = some cm → mLookup cm.1 s.msgs = some ms →
      (∃ m ∈ ms, m.id = cm.2) →
      dLookup fid (update_file s fid true).1.downloads = none) := by
  constructor
  · intro h
    unfold update_file
    simp only [h]
  · intro hd hm hex
    unfold update_file
    simp only [hd, hm]
    rw [setLocalFirst_found cm.2 true ms hex]
    simp only [if_true]
    exact dLookup_dErase_self fid _

/-- C4 (witness): transfer id 99 is untracked in the base state and is a
logged no-op; tracked transfer 7 for message 10 of chat 1 is removed
from the registry once complete. -/
theorem c4_update_file_registry_witness :
    update_file baseState 99 true = (baseState, [Eff.logWarning]) ∧
      dLookup 7 (update_file dlState 7 true).1.downloads = none :=
  ⟨(c4_update_file_registry baseState 99 true (0, 0) []).1 (by decide),
    (c4_update_file_registry dlState 7 true (1, 10) [baseMsg]).2 (by decide)
      (by decide) (by decide)⟩

theorem handle_chats_m_eq (s : State) (chat : Chat)
    (h : s.chats.get? s.current_chat = some chat) :
    handle_chats_m s =
      ({ s with chats := s.chats.set s.current_chat (toggleMute chat).1 },
        (toggleMute chat).2) := by
  unfold handle_chats_m
  simp only [h]

/-- C6: the mute-toggle key on the selected chat requests
`mute_for = 2147483647` when the chat is unmuted and `mute_for = 0` when
it is muted, and after two toggles a further toggle requests the same
value as the first one did. -/
theorem c6_mute_toggle (s : State) (chat : Chat)
    (h : s.chats.get? s.current_chat = some chat) :
    (chat.notification_settings.mute_for = 0 →
      (handle_chats_m s).2 =
        [Eff.callSetNotificationSettings chat.id 2147483647]) ∧
    (chat.notification_settings.mute_for ≠ 0 →
      (handle_chats_m s).2 = [Eff.callSetNotificationSettings chat.id 0]) ∧
    (handle_chats_m (handle_chats_m (handle_chats_m s).1).1).2 =
      (handle_chats_m s).2 := by
  have hbig : (2147483647 : Int) ≠ 0 := by decide
  refine ⟨?_, ?_, ?_⟩
  · intro h0
    rw [handle_chats_m_eq s chat h]
    simp [toggleMute, h0]
  · intro h0
    rw [handle_chats_m_eq s chat h]
    simp [toggleMute, h0]
  · have h2 : (s.chats.set s.current_chat (toggleMute chat).1).get?
        s.current_chat = some (toggleMute chat).1 := getq_set_self _ _ _ _ h
    have h3 : ((s.chats.set s.current_chat (toggleMute chat).1).set
          s.current_chat (toggleMute (toggleMute chat).1).1).get?
        s.current_chat = some (toggleMute (toggleMute chat).1).1 :=
      getq_set_self _ _ _ _ h2
    have e1 := handle_chats_m_eq s chat h
    have e2 := handle_chats_m_eq
      { s with chats := s.chats.set s.current_chat (toggleMute chat).1 }
      (toggleMute chat).1 h2
    have e3 := handle_chats_m_eq
      { s with
        chats := (s.chats.set s.current_chat (toggleMute chat).1).set
          s.current_chat (toggleMute (toggleMute chat).1).1 }
      (toggleMute (toggleMute chat).1).1 h3
    simp only [e1, e2, e3]
    by_cases h0 : chat.notification_settings.mute_for = 0 <;>
      simp [toggleMute, h0, hbig]

/-- C6 (witness): on the base state (mute 0) the first request is the
forever sentinel and the third toggle repeats the first request; on the
muted state (mute 300) the request is 0. -/
theorem c6_mute_toggle_witness :
    (handle_chats_m baseState).2 =
        [Eff.callSetNotificationSettings 1 2147483647] ∧
      (handle_chats_m mutedState).2 = [Eff.callSetNotificationSettings 1 0] ∧
      (handle_chats_m (handle_chats_m (handle_chats_m baseState).1).1).2 =
        (handle_chats_m baseState).2 :=
  ⟨(c6_mute_toggle baseState baseChat rfl).1 rfl,
    (c6_mute_toggle mutedState mutedChat rfl).2.1 (by decide),
    (c6_mute_toggle baseState baseChat rfl).2.2⟩

/-- C7: a new-message event raises a desktop notification exactly when
the message's chat — genuinely found by id in the chat list — is
unmuted and the sender is not the local user; when raised, the title is
the sender's first and last name and the body is the text for text
messages and the content-type label otherwise. -/
theorem c7_notification_policy (s : State) (msg : Msg) (chat : Chat)
    (fn ln : String)
    (hc : firstChatWithId msg.chat_id s.chats = some chat)
    (hu : uLookup msg.sender_user_id s.users = some (fn, ln)) :
    (notifies (update_new_msg s msg).2 = true ↔
      chat.notification_settings.mute_for = 0 ∧ msg.sender_user_id ≠ s.me) ∧
    (chat.notification_settings.mute_for = 0 → msg.sender_user_id ≠ s.me →
      Eff.notify
          (if msg.is_text_content then msg.text else msg.content_type_label)
          (fn ++ " " ++ ln) ∈ (update_new_msg s msg).2) := by
  have hpy := firstChat_findChatPy msg.chat_id chat s.chats hc
  have hsup : muteSuppressed s.chats msg.chat_id =
      (chat.notification_settings.mute_for != 0) := by
    unfold muteSuppressed
    rw [hpy]
  constructor
  · rw [notifies_update_new_msg]
    unfold notifyForMessage
    rw [hsup]
    by_cases h0 : chat.notification_settings.mute_for = 0
    · by_cases hm : msg.sender_user_id = s.me
      · simp [h0, hm, notifies]
      · simp [h0, hm, notifies]
    · simp [h0, notifies]
  · intro h0 hm
    apply mem_update_new_msg_of_mem_notify
    unfold notifyForMessage
    rw [hsup]
    simp [h0, hm, getUser, hu]

/-- C7 (witness): in the base state, a message from user 2 in unmuted
chat 1 notifies with title `Ann Lee` and the message text as body. -/
theorem c7_notification_policy_witness :
    notifies (update_new_msg baseState baseMsg).2 = true ∧
      Eff.notify (if baseMsg.is_text_content then baseMsg.text
          else baseMsg.content_type_label) ("Ann" ++ " " ++ "Lee") ∈
        (update_new_msg baseState baseMsg).2 :=
  ⟨(c7_notification_policy baseState baseMsg baseChat "Ann" "Lee" rfl
      rfl).1.mpr (by decide),
    (c7_notification_policy baseState baseMsg baseChat "Ann" "Lee" rfl rfl).2
      rfl (by decide)⟩

end Tg
